import Mathlib

/-!
Shallow embedding of `src/app.py` (AI Travel Planner, a Streamlit app).

Python's dynamic values are modelled by the inductive `Value`; Python dicts
are association lists with first-match lookup (Python dicts have unique keys,
so this is faithful).  Streamlit output calls (`st.write`, `st.markdown`,
`st.expander`, ...) are modelled as a trace of `Event`s; a Python exception
(AttributeError / TypeError) is modelled by `Except.error`.
-/

/-- A Python value as it can appear in a parsed JSON plan or a built spec:
strings, integers, None, lists and string-keyed dicts.  Floats are not
exercised by any function under study beyond string interpolation. -/
inductive Value where
  | str : String → Value
  | num : Int → Value
  | none : Value
  | list : List Value → Value
  | dict : List (String × Value) → Value
deriving Repr

mutual
/-- Python `repr`, as used by `str()` on lists and dicts (string escaping is
not modelled; no claim exercises it). -/
def pyRepr : Value → String
  | .str s => "'" ++ s ++ "'"
  | .num n => toString n
  | .none => "None"
  | .list l => "[" ++ String.intercalate ", " (pyReprList l) ++ "]"
  | .dict d => "\x7b" ++ String.intercalate ", " (pyReprDict d) ++ "\x7d"

def pyReprList : List Value → List String
  | [] => []
  | v :: vs => pyRepr v :: pyReprList vs

def pyReprDict : List (String × Value) → List String
  | [] => []
  | kv :: vs => ("'" ++ kv.1 ++ "': " ++ pyRepr kv.2) :: pyReprDict vs
end

/-- Python `str()`, as used by f-string interpolation. -/
def pyStr : Value → String
  | .str s => s
  | v => pyRepr v

/-- Python truthiness (`if x:`). -/
def truthy : Value → Bool
  | .str s => s ≠ ""
  | .num n => n ≠ 0
  | .none => false
  | .list l => ¬ l.isEmpty
  | .dict d => ¬ d.isEmpty

/-- Python `d.get(k, dflt)` on a dict modelled as an association list. -/
def assocGet (d : List (String × Value)) (k : String) (dflt : Value) : Value :=
  match d.find? (fun kv => kv.1 == k) with
  | some kv => kv.2
  | Option.none => dflt

/-- Python `k in d` on a dict. -/
def hasKey (d : List (String × Value)) (k : String) : Bool :=
  d.any (fun kv => kv.1 == k)

/-- Python iteration `for x in v`: lists yield their items, strings yield
their characters as one-character strings, dicts yield their keys; numbers
and None raise TypeError. -/
def pyIter : Value → Except String (List Value)
  | .list l => .ok l
  | .str s => .ok (s.data.map (fun c => .str (String.singleton c)))
  | .dict d => .ok (d.map (fun kv => .str kv.1))
  | _ => .error "TypeError: object is not iterable"

/-- Python attribute access `v.get`: only dicts have it; anything else
raises AttributeError. -/
def asDict : Value → Except String (List (String × Value))
  | .dict d => .ok d
  | _ => .error "AttributeError: object has no attribute get"

/-- Python `x == 1` for a dynamic `x` against an int literal: true exactly
for the equal number, false across types (as for `'?' == 1`). -/
def pyEqInt (v : Value) (n : Int) : Bool :=
  match v with
  | .num m => m == n
  | _ => false

/-- The whitespace characters stripped by Python `str.strip()`. -/
def isPySpace (c : Char) : Bool :=
  c = ' ' || c = '\t' || c = '\n' || c = '\r' || c = '\x0b' || c = '\x0c'

/-- Python `s.strip()`. -/
def pyStrip (s : String) : String :=
  String.mk (((s.data.dropWhile isPySpace).reverse.dropWhile isPySpace).reverse)

/-! ## Markdown export (`itinerary_to_markdown`, app.py lines 230-277) -/

/-- One Morning/Afternoon/Evening block of a day in the Markdown export
(app.py 246-251): label plus one bullet per iterated item, only when truthy. -/
def mdPart (dd : List (String × Value)) (part : String) : Except String (List String) :=
  if truthy (assocGet dd part (.list [])) then do
    let l ← pyIter (assocGet dd part (.list []))
    pure (("**" ++ part.capitalize ++ ":**") :: l.map (fun it => "- " ++ pyStr it))
  else pure []

/-- The Food block of a day in the Markdown export (app.py 252-256). -/
def mdFood (dd : List (String × Value)) : Except String (List String) :=
  if truthy (assocGet dd "food" (.list [])) then do
    let l ← pyIter (assocGet dd "food" (.list []))
    pure ("**Food:**" :: l.map (fun f => "- " ++ pyStr f))
  else pure []

/-- One day of the Markdown export (app.py 245-261); `d.get('day')` raises
AttributeError when `d` is not a dict. -/
def mdDay (d : Value) : Except String (List String) := do
  let dd ← asDict d
  let head := "### Day " ++ pyStr (assocGet dd "day" .none) ++ " – " ++
    pyStr (assocGet dd "title" (.str ""))
  let m ← mdPart dd "morning"
  let a ← mdPart dd "afternoon"
  let e ← mdPart dd "evening"
  let fd ← mdFood dd
  let tn := if truthy (assocGet dd "transport_notes" .none) then
      ["**Transport Notes:** " ++ pyStr (assocGet dd "transport_notes" .none)]
    else []
  let cost := if hasKey dd "est_cost_usd" then
      ["_Estimated cost_: $" ++ pyStr (assocGet dd "est_cost_usd" .none)]
    else []
  pure (head :: (m ++ a ++ e ++ fd ++ tn ++ cost ++ [""]))

/-- The day loop of the Markdown export (app.py 244). -/
def mdDays : List Value → Except String (List String)
  | [] => .ok []
  | d :: rest => do
    let ls ← mdDay d
    let more ← mdDays rest
    pure (ls ++ more)

/-- The summary line of the Markdown export (app.py 233-234). -/
def mdSummarySection (plan : List (String × Value)) : List String :=
  if truthy (assocGet plan "summary" .none) then
    ["**Summary:** " ++ pyStr (assocGet plan "summary" .none) ++ "\n"]
  else []

/-- The Visa & Tips section of the Markdown export (app.py 236-240). -/
def mdVisaSection (plan : List (String × Value)) : Except String (List String) :=
  if truthy (assocGet plan "visa_and_tips" .none) then do
    let l ← pyIter (assocGet plan "visa_and_tips" .none)
    pure ("## Visa & Tips" :: (l.map (fun t => "- " ++ pyStr t) ++ [""]))
  else pure []

/-- The Daily Plan section of the Markdown export (app.py 242-261). -/
def mdDailySection (plan : List (String × Value)) : Except String (List String) :=
  if truthy (assocGet plan "daily_plan" .none) then do
    let days ← pyIter (assocGet plan "daily_plan" .none)
    let rest ← mdDays days
    pure ("## Daily Plan" :: rest)
  else pure []

/-- The total-cost line of the Markdown export (app.py 263-264). -/
def mdTotalSection (plan : List (String × Value)) : List String :=
  if truthy (assocGet plan "total_estimated_cost_usd" .none) then
    ["**Total Estimated Cost**: ~$" ++ pyStr (assocGet plan "total_estimated_cost_usd" .none) ++ "\n"]
  else []

/-- The Map Links section of the Markdown export (app.py 266-270). -/
def mdMapSection (plan : List (String × Value)) : Except String (List String) :=
  if truthy (assocGet plan "map_links" .none) then do
    let l ← pyIter (assocGet plan "map_links" .none)
    pure ("## Map Links" :: (l.map (fun u => "- " ++ pyStr u) ++ [""]))
  else pure []

/-- The Packing / Seasonal Tips section of the Markdown export
(app.py 272-276). -/
def mdPackingSection (plan : List (String × Value)) : Except String (List String) :=
  if truthy (assocGet plan "packing_or_seasonal_tips" .none) then do
    let l ← pyIter (assocGet plan "packing_or_seasonal_tips" .none)
    pure ("## Packing / Seasonal Tips" :: (l.map (fun t => "- " ++ pyStr t) ++ [""]))
  else pure []

/-- `itinerary_to_markdown` (app.py 230-277): builds the line list section by
section and joins with newlines.  An exception anywhere propagates. -/
def itineraryToMarkdown (plan : List (String × Value)) : Except String String := do
  let visa ← mdVisaSection plan
  let daily ← mdDailySection plan
  let maps ← mdMapSection plan
  let packing ← mdPackingSection plan
  pure (String.intercalate "\n"
    (["# AI Travel Planner Itinerary\n"] ++ mdSummarySection plan ++ visa ++ daily ++
      mdTotalSection plan ++ maps ++ packing))

/-! ## Rendering (`_render_list` and `render_itinerary`, app.py 143-227) -/

/-- One Streamlit output call made while rendering. -/
inductive Event where
  | success : Value → Event
  | write : String → Event
  | markdown : String → Event
  | info : Value → Event
  | caption : String → Event
  | subheader : String → Event
  | expander : String → Bool → Event
  | downloadJson : List (String × Value) → Event
  | downloadMd : String → Event
deriving Repr

/-- `_render_list` (app.py 143-149): writes a string whole, writes bullets
for a list, and silently does nothing for any other type.  Never raises. -/
def renderList (items : Value) : List Event :=
  match items with
  | .str s => [.write s]
  | .list l => l.map (fun item => .write ("- " ++ pyStr item))
  | _ => []

/-- One labeled Morning/Afternoon/Evening/Food block of a day in
`render_itinerary` (app.py 173-189): the label is emitted unconditionally,
then a string is written whole, anything else is iterated. -/
def renderSection (day : List (String × Value)) (label key : String) :
    Except String (List Event) :=
  let items := assocGet day key (.list [])
  match items with
  | .str s => pure [.markdown ("**" ++ label ++ "**"), .write s]
  | v => do
    let l ← pyIter v
    pure (.markdown ("**" ++ label ++ "**") :: l.map (fun a => .write ("- " ++ pyStr a)))

/-- `day.get('day', '?')` of app.py 166, `'?'` for a non-dict day. -/
def dayNumOf : Value → Value
  | .dict d => assocGet d "day" (.str "?")
  | _ => .str "?"

/-- `day.get('title', '')` of app.py 167, `str(day)` for a non-dict day. -/
def dayTitleOf : Value → Value
  | .dict d => assocGet d "title" (.str "")
  | v => .str (pyStr v)

/-- One iteration of the day loop of `render_itinerary` (app.py 165-195):
the expander header (expanded exactly when `day.get('day','?') == 1`), then
for a dict day the labeled sections, transport notes and optional cost
caption; a non-dict day is written raw. -/
def renderDay (day : Value) : Except String (List Event) :=
  let dayNum := dayNumOf day
  let dayTitle := dayTitleOf day
  let header := Event.expander ("Day " ++ pyStr dayNum ++ ": " ++ pyStr dayTitle)
    (pyEqInt dayNum 1)
  match day with
  | .dict d => do
    let m ← renderSection d "Morning" "morning"
    let a ← renderSection d "Afternoon" "afternoon"
    let e ← renderSection d "Evening" "evening"
    let fd ← renderSection d "Food" "food"
    let tn := [Event.markdown "**Transport Notes**",
      Event.info (assocGet d "transport_notes" (.str ""))]
    let cost := if hasKey d "est_cost_usd" then
        [Event.caption ("Estimated daily cost: ~$" ++ pyStr (assocGet d "est_cost_usd" .none))]
      else []
    pure (header :: (m ++ a ++ e ++ fd ++ tn ++ cost))
  | v => pure [header, .write (pyStr v)]

/-- The day loop of `render_itinerary` (app.py 165). -/
def renderDays : List Value → Except String (List Event)
  | [] => .ok []
  | d :: rest => do
    let evs ← renderDay d
    let more ← renderDays rest
    pure (evs ++ more)

/-- The visa expander of `render_itinerary` (app.py 155-157); `_render_list`
never raises, so this section is pure. -/
def renderVisaSection (plan : List (String × Value)) : List Event :=
  if truthy (assocGet plan "visa_and_tips" .none) then
    Event.expander "🛂 Visa & Practical Tips" true ::
      renderList (assocGet plan "visa_and_tips" .none)
  else []

/-- The daily-schedule block of `render_itinerary` (app.py 159-195): a
string `daily_plan` is written whole, anything else is iterated day by day
(`plan.get` defaults to an empty list). -/
def renderDailyBlock (plan : List (String × Value)) : Except String (List Event) :=
  match assocGet plan "daily_plan" (.list []) with
  | .str s => pure [Event.markdown "## 🗓️ Daily Schedule", Event.write s]
  | v => do
    let days ← pyIter v
    let dayEvs ← renderDays days
    pure (Event.markdown "## 🗓️ Daily Schedule" :: dayEvs)

/-- The total-cost subheader of `render_itinerary` (app.py 197-199), emitted
only for a truthy `total_estimated_cost_usd`. -/
def renderTotalSection (plan : List (String × Value)) : List Event :=
  if truthy (assocGet plan "total_estimated_cost_usd" .none) then
    [Event.subheader ("💰 Total Estimated Cost: ~$" ++
      pyStr (assocGet plan "total_estimated_cost_usd" .none))]
  else []

/-- The map-links block of `render_itinerary` (app.py 201-204). -/
def renderMapSection (plan : List (String × Value)) : Except String (List Event) :=
  if truthy (assocGet plan "map_links" .none) then do
    let l ← pyIter (assocGet plan "map_links" .none)
    pure (Event.markdown "### 🗺️ Useful Map Links" ::
      l.map (fun u => Event.write ("- " ++ pyStr u)))
  else pure []

/-- The packing-tips block of `render_itinerary` (app.py 206-209). -/
def renderPackingSection (plan : List (String × Value)) : Except String (List Event) :=
  if truthy (assocGet plan "packing_or_seasonal_tips" .none) then do
    let l ← pyIter (assocGet plan "packing_or_seasonal_tips" .none)
    pure (Event.markdown "### 🎒 Packing / Seasonal Tips" ::
      l.map (fun t => Event.write ("- " ++ pyStr t)))
  else pure []

/-- The view phase of `render_itinerary` (app.py 153-209): everything up to
the horizontal rule and download buttons. -/
def renderItineraryView (plan : List (String × Value)) : Except String (List Event) := do
  let ev2 ← renderDailyBlock plan
  let ev4 ← renderMapSection plan
  let ev5 ← renderPackingSection plan
  pure ([Event.success (assocGet plan "summary" (.str ""))] ++
    renderVisaSection plan ++ ev2 ++ renderTotalSection plan ++ ev4 ++ ev5)

/-- `render_itinerary` (app.py 152-227): the view phase, then the horizontal
rule and the two download buttons.  Building the Markdown download calls
`itinerary_to_markdown` on the same plan, so an exception there propagates
out of `render_itinerary`. -/
def renderItinerary (plan : List (String × Value)) : Except String (List Event) := do
  let view ← renderItineraryView plan
  let md ← itineraryToMarkdown plan
  pure (view ++ [.markdown "---", .downloadJson plan, .downloadMd md])

/-! ## Spec building and submission (app.py 105-140, 281-294) -/

/-- The raw form fields as collected by the Streamlit widgets
(app.py 32-80); text widgets yield strings, the numeric widgets integers. -/
structure RawForm where
  destination : String
  passport_country : String
  month : String
  duration_days : Int
  travel_group : String
  budget_band : String
  daily_budget : Int
  accommodation : String
  style : List String
  food : List String
  must_include : String
  avoid : String
  notes : String

/-- `(x or "").strip() or None` (app.py 118-120). -/
def strOrNone (s : String) : Value :=
  let t := pyStrip (if s = "" then "" else s)
  if t = "" then .none else .str t

/-- `build_spec` (app.py 105-121): the normalized trip-spec dict.
Destination and passport country are copied verbatim; the three text areas
are trimmed to None; a non-positive daily budget becomes None. -/
def buildSpec (f : RawForm) : List (String × Value) :=
  [("destination", .str f.destination),
   ("passport_country", .str f.passport_country),
   ("month_or_season", .str f.month),
   ("duration_days", .num f.duration_days),
   ("group", .str f.travel_group),
   ("budget_band", .str f.budget_band),
   ("daily_budget_usd", if f.daily_budget > 0 then .num f.daily_budget else .none),
   ("accommodation", .str f.accommodation),
   ("style", .list (f.style.map .str)),
   ("food", .list (f.food.map .str)),
   ("must_include", strOrNone f.must_include),
   ("avoid", strOrNone f.avoid),
   ("notes", strOrNone f.notes)]

/-- The configuration a successfully built chain carries (app.py 127). -/
structure ChainConfig where
  apiKey : String
  modelName : String
  temperature : ℚ
deriving Repr, DecidableEq

/-- `build_chain` (app.py 124-140): raises on a falsy (empty) API key
before any client is constructed, otherwise yields the prompt-llm-parser
chain, modelled by its configuration. -/
def buildChain (apiKey modelName : String) (temperature : ℚ) :
    Except String ChainConfig :=
  if apiKey = "" then
    .error "Missing API key. Add it in the sidebar or set OPENAI_API_KEY."
  else .ok ⟨apiKey, modelName, temperature⟩

/-- The sidebar key fallback (app.py 22-24): an empty text input falls back
to the OPENAI_API_KEY environment variable, absent meaning "". -/
def effectiveApiKey (entered : String) (envKey : Option String) : String :=
  if entered = "" then envKey.getD "" else entered

/-- Outcome of the submitted-form action block (app.py 281-294). -/
inductive SubmitResult where
  | fieldError : String → SubmitResult
  | failure : String → SubmitResult
  | invoked : ChainConfig → List (String × Value) → SubmitResult
deriving Repr

/-- The submitted-form action block (app.py 281-294): a blank destination is
rejected with a field-level error before the spec or chain is built; a
`build_chain` exception is caught and shown; otherwise the chain is invoked
on the serialized spec. -/
def submitAction (f : RawForm) (apiKey modelName : String) (temperature : ℚ) :
    SubmitResult :=
  if pyStrip f.destination = "" then .fieldError "Please enter a destination."
  else
    match buildChain apiKey modelName temperature with
    | .error e => .failure ("Failed to generate itinerary: " ++ e)
    | .ok cfg => .invoked cfg (buildSpec f)

/-! ## Observation helpers for stating properties -/

/-- Whether an event is the total-cost subheader call (`st.subheader` is used
nowhere else in the program). -/
def isSubheaderEvent : Event → Bool
  | .subheader _ => true
  | _ => false

/-- No `st.subheader` call occurs in an event trace. -/
def noSubheaderEvents (l : List Event) : Bool :=
  l.all (fun e => !isSubheaderEvent e)

/-- Whether an event is an `st.caption` call (the per-day estimated-cost
line is the only caption the program emits). -/
def isCaptionEvent : Event → Bool
  | .caption _ => true
  | _ => false

/-- Whether an `st.caption` call (the per-day estimated-cost line) occurs. -/
def hasCaptionEvent (l : List Event) : Bool :=
  l.any isCaptionEvent

/-- The expander headers of a trace with their expanded-by-default flags. -/
def expanderFlags (l : List Event) : List (String × Bool) :=
  l.filterMap (fun e => match e with | .expander s b => some (s, b) | _ => Option.none)

/-- Whether a value is a Python dict. -/
def isDictV : Value → Bool
  | .dict _ => true
  | _ => false

/-- A `daily_plan` value that is a non-empty string, or a list with at least
one non-dict entry. -/
def badDailyPlan : Value → Bool
  | .str s => s ≠ ""
  | .list l => l.any (fun d => !isDictV d)
  | _ => false

/-- Whether a computation raised (`Except.error`). -/
def exceptFails {α : Type} : Except String α → Bool
  | .error _ => true
  | .ok _ => false

/-! ## General lemmas about the embedding -/

theorem except_ok_bind {α β : Type} (a : α) (f : α → Except String β) :
    (Except.ok a >>= f) = f a := rfl

theorem except_error_bind {α β : Type} (e : String) (f : α → Except String β) :
    ((Except.error e : Except String α) >>= f) = .error e := rfl

theorem except_bind_ok_destruct {α β : Type} {x : Except String α}
    {f : α → Except String β} {b : β} (h : (x >>= f) = .ok b) :
    ∃ a, x = .ok a ∧ f a = .ok b := by
  cases x with
  | error e => rw [except_error_bind] at h; exact absurd h (by simp)
  | ok a => exact ⟨a, rfl, h⟩

theorem all_map_eq {α β : Type} (p : α → Bool) (f : β → α) (l : List β) :
    (l.map f).all p = l.all (fun b => p (f b)) := by
  induction l with
  | nil => rfl
  | cons a l ih => simp [List.all_cons, ih]

theorem assocGet_of_not_hasKey (d : List (String × Value)) (k : String)
    (dflt : Value) (h : hasKey d k = false) : assocGet d k dflt = dflt := by
  unfold assocGet
  have hf : d.find? (fun kv => kv.1 == k) = Option.none := by
    rw [List.find?_eq_none]
    intro x hx
    unfold hasKey at h
    rw [List.any_eq_false] at h
    exact h x hx
  rw [hf]

theorem pyStrip_of_all_space (s : String)
    (h : ∀ c ∈ s.data, isPySpace c = true) : pyStrip s = "" := by
  unfold pyStrip
  rw [List.dropWhile_eq_nil_iff.mpr h]
  rfl

theorem strOrNone_of_all_space (s : String)
    (h : ∀ c ∈ s.data, isPySpace c = true) : strOrNone s = .none := by
  unfold strOrNone
  have hs : (if s = "" then "" else s) = s := by split <;> simp_all
  rw [hs, pyStrip_of_all_space s h]
  rfl

theorem renderSection_ok_shape (d : List (String × Value)) (lab key : String)
    (l : List Event) (h : renderSection d lab key = .ok l) :
    ∃ rest, l = Event.markdown ("**" ++ lab ++ "**") :: rest ∧
      ∀ e ∈ rest, ∃ s, e = Event.write s := by
  unfold renderSection at h
  cases hv : assocGet d key (.list []) <;> rw [hv] at h
  case str s =>
    simp only [pure, Except.pure, Except.ok.injEq] at h
    exact ⟨[Event.write s], h.symm, by intro e he; simp at he; exact ⟨s, he⟩⟩
  case num n =>
    simp only [pyIter, bind, Except.bind] at h
    exact absurd h (by simp)
  case none =>
    simp only [pyIter, bind, Except.bind] at h
    exact absurd h (by simp)
  case list l0 =>
    simp only [pyIter, bind, Except.bind, pure, Except.pure, Except.ok.injEq] at h
    refine ⟨_, h.symm, ?_⟩
    intro e he
    rw [List.mem_map] at he
    obtain ⟨x, _, rfl⟩ := he
    exact ⟨_, rfl⟩
  case dict d0 =>
    simp only [pyIter, bind, Except.bind, pure, Except.pure, Except.ok.injEq] at h
    refine ⟨_, h.symm, ?_⟩
    intro e he
    rw [List.mem_map] at he
    obtain ⟨x, _, rfl⟩ := he
    exact ⟨_, rfl⟩

theorem renderDay_dict_shape (d : List (String × Value)) (evs : List Event)
    (h : renderDay (.dict d) = .ok evs) :
    ∃ m a e fd, renderSection d "Morning" "morning" = .ok m ∧
      renderSection d "Afternoon" "afternoon" = .ok a ∧
      renderSection d "Evening" "evening" = .ok e ∧
      renderSection d "Food" "food" = .ok fd ∧
      evs = Event.expander
          ("Day " ++ pyStr (assocGet d "day" (.str "?")) ++ ": " ++
            pyStr (assocGet d "title" (.str "")))
          (pyEqInt (assocGet d "day" (.str "?")) 1) ::
        (m ++ a ++ e ++ fd ++
          [Event.markdown "**Transport Notes**",
            Event.info (assocGet d "transport_notes" (.str ""))] ++
          (if hasKey d "est_cost_usd" then
            [Event.caption ("Estimated daily cost: ~$" ++
              pyStr (assocGet d "est_cost_usd" .none))]
          else [])) := by
  unfold renderDay at h
  simp only [dayNumOf, dayTitleOf] at h
  obtain ⟨m, hm, h⟩ := except_bind_ok_destruct h
  obtain ⟨a, ha, h⟩ := except_bind_ok_destruct h
  obtain ⟨e, he, h⟩ := except_bind_ok_destruct h
  obtain ⟨fd, hfd, h⟩ := except_bind_ok_destruct h
  simp only [pure, Except.pure, Except.ok.injEq] at h
  exact ⟨m, a, e, fd, hm, ha, he, hfd, h.symm⟩

/-! ## Claim theorems -/

/-- C1: the claim as a whole fails on the code.  A plan whose `daily_plan` is
a non-empty string is displayed as a single block by the view phase, but
`render_itinerary` then calls `itinerary_to_markdown` to build the Markdown
download, which iterates the string and calls `.get` on each character, so
`render_itinerary` raises AttributeError instead of completing. -/
theorem renderItinerary_daily_plan_string_raises :
    renderItineraryView [("daily_plan", .str "Stroll around the old town.")] =
      .ok [.success (.str ""), .markdown "## 🗓️ Daily Schedule",
        .write "Stroll around the old town."] ∧
    renderItinerary [("daily_plan", .str "Stroll around the old town.")] =
      .error "AttributeError: object has no attribute get" :=
  ⟨rfl, rfl⟩

/-- C2: the Markdown export of the one-day Kyoto plan is exactly the title
line, the summary line, and a Daily Plan section with the Day 1 heading, the
Morning label and its single bullet — and nothing else. -/
theorem itineraryToMarkdown_minimal_plan_exact :
    itineraryToMarkdown
      [("summary", .str "Day trip to Kyoto."),
       ("daily_plan", .list [.dict [("day", .num 1), ("title", .str "Arrival"),
         ("morning", .list [.str "Fushimi Inari"])]])] =
    .ok ("# AI Travel Planner Itinerary\n\n**Summary:** Day trip to Kyoto.\n\n" ++
      "## Daily Plan\n### Day 1 – Arrival\n**Morning:**\n- Fushimi Inari\n") :=
  rfl

/-- C3: in the spec built from the form, the daily-budget field is None
exactly for non-positive raw inputs and carries the raw value otherwise. -/
theorem buildSpec_daily_budget_sentinel (f : RawForm) :
    (f.daily_budget ≤ 0 →
      assocGet (buildSpec f) "daily_budget_usd" (.str "absent") = .none) ∧
    (0 < f.daily_budget →
      assocGet (buildSpec f) "daily_budget_usd" (.str "absent") = .num f.daily_budget) := by
  have hred : assocGet (buildSpec f) "daily_budget_usd" (.str "absent") =
      (if f.daily_budget > 0 then Value.num f.daily_budget else Value.none) := rfl
  constructor <;> intro h <;> rw [hred]
  · rw [if_neg (by omega)]
  · rw [if_pos (by omega)]

theorem buildSpec_daily_budget_sentinel_witness :
    ((⟨"Tokyo, Japan", "", "Flexible", 7, "Solo", "Medium", 0, "Hotel", [], [],
        "", "", ""⟩ : RawForm).daily_budget ≤ 0 ∧
      assocGet (buildSpec ⟨"Tokyo, Japan", "", "Flexible", 7, "Solo", "Medium", 0,
        "Hotel", [], [], "", "", ""⟩) "daily_budget_usd" (.str "absent") = .none) ∧
    (0 < (⟨"Tokyo, Japan", "", "Flexible", 7, "Solo", "Medium", 40, "Hotel", [], [],
        "", "", ""⟩ : RawForm).daily_budget ∧
      assocGet (buildSpec ⟨"Tokyo, Japan", "", "Flexible", 7, "Solo", "Medium", 40,
        "Hotel", [], [], "", "", ""⟩) "daily_budget_usd" (.str "absent") = .num 40) :=
  ⟨⟨by decide,
    (buildSpec_daily_budget_sentinel ⟨"Tokyo, Japan", "", "Flexible", 7, "Solo",
      "Medium", 0, "Hotel", [], [], "", "", ""⟩).1 (by decide)⟩,
   ⟨by decide,
    (buildSpec_daily_budget_sentinel ⟨"Tokyo, Japan", "", "Flexible", 7, "Solo",
      "Medium", 40, "Hotel", [], [], "", "", ""⟩).2 (by decide)⟩⟩

/-- C4: counterexample to the claim as stated — `build_spec` copies
`passport_country` verbatim, so a whitespace-only passport country stays a
whitespace string instead of becoming None. -/
theorem buildSpec_passport_not_trimmed :
    assocGet (buildSpec ⟨"Tokyo, Japan", " ", "Flexible", 7, "Solo", "Medium", 0,
      "Hotel", [], [], "", "", ""⟩) "passport_country" .none = .str " " ∧
    Value.str " " ≠ Value.none :=
  ⟨rfl, by simp⟩

/-- C4 (amended): whitespace-only free text becomes None for the three text
areas `must_include`, `avoid` and `notes`; `passport_country` (like
`destination`) is copied into the spec unmodified. -/
theorem buildSpec_text_fields_trimmed (f : RawForm)
    (hm : ∀ c ∈ f.must_include.data, isPySpace c = true)
    (ha : ∀ c ∈ f.avoid.data, isPySpace c = true)
    (hn : ∀ c ∈ f.notes.data, isPySpace c = true) :
    assocGet (buildSpec f) "must_include" (.str "present") = .none ∧
    assocGet (buildSpec f) "avoid" (.str "present") = .none ∧
    assocGet (buildSpec f) "notes" (.str "present") = .none ∧
    assocGet (buildSpec f) "passport_country" (.str "present") = .str f.passport_country := by
  have h1 : assocGet (buildSpec f) "must_include" (.str "present") =
      strOrNone f.must_include := rfl
  have h2 : assocGet (buildSpec f) "avoid" (.str "present") =
      strOrNone f.avoid := rfl
  have h3 : assocGet (buildSpec f) "notes" (.str "present") =
      strOrNone f.notes := rfl
  have h4 : assocGet (buildSpec f) "passport_country" (.str "present") =
      .str f.passport_country := rfl
  exact ⟨h1.trans (strOrNone_of_all_space _ hm),
    h2.trans (strOrNone_of_all_space _ ha),
    h3.trans (strOrNone_of_all_space _ hn), h4⟩

theorem buildSpec_text_fields_trimmed_witness :
    assocGet (buildSpec ⟨"Tokyo, Japan", "Palestine", "Flexible", 7, "Solo", "Medium",
      0, "Hotel", [], [], " ", "", "\t\n"⟩) "must_include" (.str "present") = .none ∧
    assocGet (buildSpec ⟨"Tokyo, Japan", "Palestine", "Flexible", 7, "Solo", "Medium",
      0, "Hotel", [], [], " ", "", "\t\n"⟩) "avoid" (.str "present") = .none ∧
    assocGet (buildSpec ⟨"Tokyo, Japan", "Palestine", "Flexible", 7, "Solo", "Medium",
      0, "Hotel", [], [], " ", "", "\t\n"⟩) "notes" (.str "present") = .none ∧
    assocGet (buildSpec ⟨"Tokyo, Japan", "Palestine", "Flexible", 7, "Solo", "Medium",
      0, "Hotel", [], [], " ", "", "\t\n"⟩) "passport_country" (.str "present") =
      .str "Palestine" :=
  buildSpec_text_fields_trimmed
    ⟨"Tokyo, Japan", "Palestine", "Flexible", 7, "Solo", "Medium", 0, "Hotel",
      [], [], " ", "", "\t\n"⟩ (by decide) (by decide) (by decide)

/-- C5: a whitespace-only destination stops the submitted-form action with
the field-level "Please enter a destination." error before any chain is
built; a non-blank destination together with a non-empty API key reaches the
model invocation with the chain configuration and the built spec. -/
theorem submitAction_blank_destination (f : RawForm) (k m : String) (t : ℚ) :
    ((∀ c ∈ f.destination.data, isPySpace c = true) →
      submitAction f k m t = .fieldError "Please enter a destination.") ∧
    (pyStrip f.destination ≠ "" → k ≠ "" →
      submitAction f k m t = .invoked ⟨k, m, t⟩ (buildSpec f)) := by
  constructor
  · intro h
    unfold submitAction
    rw [if_pos (pyStrip_of_all_space _ h)]
  · intro hd hk
    unfold submitAction
    rw [if_neg hd]
    unfold buildChain
    rw [if_neg hk]

theorem submitAction_blank_destination_witness :
    submitAction ⟨" \t", "", "Flexible", 7, "Solo", "Medium", 0, "Hotel", [], [],
      "", "", ""⟩ "sk-test" "gpt-4o-mini" (7/10) =
      .fieldError "Please enter a destination." ∧
    submitAction ⟨"Tokyo, Japan", "", "Flexible", 7, "Solo", "Medium", 0, "Hotel",
      [], [], "", "", ""⟩ "sk-test" "gpt-4o-mini" (7/10) =
      .invoked ⟨"sk-test", "gpt-4o-mini", 7/10⟩
        (buildSpec ⟨"Tokyo, Japan", "", "Flexible", 7, "Solo", "Medium", 0, "Hotel",
          [], [], "", "", ""⟩) :=
  ⟨(submitAction_blank_destination ⟨" \t", "", "Flexible", 7, "Solo", "Medium", 0,
      "Hotel", [], [], "", "", ""⟩ "sk-test" "gpt-4o-mini" (7/10)).1 (by decide),
   (submitAction_blank_destination ⟨"Tokyo, Japan", "", "Flexible", 7, "Solo",
      "Medium", 0, "Hotel", [], [], "", "", ""⟩ "sk-test" "gpt-4o-mini" (7/10)).2
     (by decide) (by decide)⟩

/-- C7: with the sidebar fallback applied, `build_chain` raises the
missing-credential error exactly when both the entered key and the
OPENAI_API_KEY environment variable are empty or absent; the error is
produced before any client object is constructed. -/
theorem buildChain_missing_credential (entered : String) (envKey : Option String)
    (m : String) (t : ℚ) :
    buildChain (effectiveApiKey entered envKey) m t =
      .error "Missing API key. Add it in the sidebar or set OPENAI_API_KEY." ↔
    (entered = "" ∧ envKey.getD "" = "") := by
  unfold buildChain effectiveApiKey
  by_cases he : entered = "" <;> by_cases hv : envKey.getD "" = "" <;>
    simp [he, hv]

theorem renderSection_noCaption (d : List (String × Value)) (lab key : String)
    (l : List Event) (h : renderSection d lab key = .ok l) :
    l.any isCaptionEvent = false := by
  obtain ⟨rest, rfl, hw⟩ := renderSection_ok_shape d lab key l h
  rw [List.any_cons]
  have : rest.any isCaptionEvent = false := by
    rw [List.any_eq_false]
    intro e he
    obtain ⟨s, rfl⟩ := hw e he
    simp [isCaptionEvent]
  rw [this]
  rfl

/-- C6: counterexample to the claim as stated — rendering a plan whose only
day has a `day` number but no `morning` field still emits the `**Morning**`
label (and the other four labels). -/
theorem renderItinerary_label_without_field :
    renderItinerary [("daily_plan", .list [.dict [("day", .num 1)]])] =
      .ok [.success (.str ""), .markdown "## 🗓️ Daily Schedule",
        .expander "Day 1: " true, .markdown "**Morning**", .markdown "**Afternoon**",
        .markdown "**Evening**", .markdown "**Food**", .markdown "**Transport Notes**",
        .info (.str ""), .markdown "---",
        .downloadJson [("daily_plan", .list [.dict [("day", .num 1)]])],
        .downloadMd "# AI Travel Planner Itinerary\n\n## Daily Plan\n### Day 1 – \n"] ∧
    Event.markdown "**Morning**" ∈
      [Event.success (.str ""), Event.markdown "## 🗓️ Daily Schedule",
        Event.expander "Day 1: " true, Event.markdown "**Morning**",
        Event.markdown "**Afternoon**", Event.markdown "**Evening**",
        Event.markdown "**Food**", Event.markdown "**Transport Notes**",
        Event.info (.str ""), Event.markdown "---",
        Event.downloadJson [("daily_plan", .list [.dict [("day", .num 1)]])],
        Event.downloadMd "# AI Travel Planner Itinerary\n\n## Daily Plan\n### Day 1 – \n"] ∧
    hasKey [("day", Value.num 1)] "morning" = false :=
  ⟨rfl, List.Mem.tail _ (List.Mem.tail _ (List.Mem.tail _ (List.Mem.head _))), rfl⟩

/-- C6 (amended): for every dict day entry the renderer emits all five labels
Morning/Afternoon/Evening/Food/Transport Notes unconditionally, whether or
not the fields are present; only the estimated-cost caption is conditional,
appearing exactly when the day has an `est_cost_usd` key.  (Top-level
sections such as visa tips, total cost, map links and packing tips do remain
conditional on their fields.) -/
theorem renderDay_labels_unconditional (d : List (String × Value)) (evs : List Event)
    (h : renderDay (.dict d) = .ok evs) :
    (Event.markdown "**Morning**" ∈ evs ∧ Event.markdown "**Afternoon**" ∈ evs ∧
     Event.markdown "**Evening**" ∈ evs ∧ Event.markdown "**Food**" ∈ evs ∧
     Event.markdown "**Transport Notes**" ∈ evs) ∧
    hasCaptionEvent evs = hasKey d "est_cost_usd" := by
  obtain ⟨m, a, e, fd, hm, ha, he, hfd, rfl⟩ := renderDay_dict_shape d evs h
  obtain ⟨mr, hmr, _⟩ := renderSection_ok_shape _ _ _ _ hm
  obtain ⟨ar, har, _⟩ := renderSection_ok_shape _ _ _ _ ha
  obtain ⟨er, her, _⟩ := renderSection_ok_shape _ _ _ _ he
  obtain ⟨fdr, hfdr, _⟩ := renderSection_ok_shape _ _ _ _ hfd
  constructor
  · subst hmr har her hfdr
    refine ⟨?_, ?_, ?_, ?_, ?_⟩ <;> simp
  · have hmc := renderSection_noCaption _ _ _ _ hm
    have hac := renderSection_noCaption _ _ _ _ ha
    have hec := renderSection_noCaption _ _ _ _ he
    have hfc := renderSection_noCaption _ _ _ _ hfd
    rw [hasCaptionEvent, List.any_cons]
    simp only [List.any_append, hmc, hac, hec, hfc]
    cases hk : hasKey d "est_cost_usd" <;> simp [isCaptionEvent]

theorem renderDay_labels_unconditional_witness :
    (Event.markdown "**Morning**" ∈
       [Event.expander "Day ?: " false, Event.markdown "**Morning**",
        Event.markdown "**Afternoon**", Event.markdown "**Evening**",
        Event.markdown "**Food**", Event.markdown "**Transport Notes**",
        Event.info (.str ""), Event.caption "Estimated daily cost: ~$50"] ∧
     Event.markdown "**Afternoon**" ∈
       [Event.expander "Day ?: " false, Event.markdown "**Morning**",
        Event.markdown "**Afternoon**", Event.markdown "**Evening**",
        Event.markdown "**Food**", Event.markdown "**Transport Notes**",
        Event.info (.str ""), Event.caption "Estimated daily cost: ~$50"] ∧
     Event.markdown "**Evening**" ∈
       [Event.expander "Day ?: " false, Event.markdown "**Morning**",
        Event.markdown "**Afternoon**", Event.markdown "**Evening**",
        Event.markdown "**Food**", Event.markdown "**Transport Notes**",
        Event.info (.str ""), Event.caption "Estimated daily cost: ~$50"] ∧
     Event.markdown "**Food**" ∈
       [Event.expander "Day ?: " false, Event.markdown "**Morning**",
        Event.markdown "**Afternoon**", Event.markdown "**Evening**",
        Event.markdown "**Food**", Event.markdown "**Transport Notes**",
        Event.info (.str ""), Event.caption "Estimated daily cost: ~$50"] ∧
     Event.markdown "**Transport Notes**" ∈
       [Event.expander "Day ?: " false, Event.markdown "**Morning**",
        Event.markdown "**Afternoon**", Event.markdown "**Evening**",
        Event.markdown "**Food**", Event.markdown "**Transport Notes**",
        Event.info (.str ""), Event.caption "Estimated daily cost: ~$50"]) ∧
    hasCaptionEvent
      [Event.expander "Day ?: " false, Event.markdown "**Morning**",
       Event.markdown "**Afternoon**", Event.markdown "**Evening**",
       Event.markdown "**Food**", Event.markdown "**Transport Notes**",
       Event.info (.str ""), Event.caption "Estimated daily cost: ~$50"] =
      hasKey [("est_cost_usd", Value.num 50)] "est_cost_usd" :=
  renderDay_labels_unconditional [("est_cost_usd", Value.num 50)] _ rfl

/-- C9: counterexample to the claim as stated — when day numbers are absent,
no entry is shown expanded: the first entry of `daily_plan` gets the header
`Day ?: First` with expanded = false, not true. -/
theorem renderItinerary_absent_day_numbers_collapsed :
    renderItinerary [("daily_plan", .list [.dict [("title", .str "First")],
        .dict [("title", .str "Second")]])] =
      .ok [.success (.str ""), .markdown "## 🗓️ Daily Schedule",
        .expander "Day ?: First" false, .markdown "**Morning**",
        .markdown "**Afternoon**", .markdown "**Evening**", .markdown "**Food**",
        .markdown "**Transport Notes**", .info (.str ""),
        .expander "Day ?: Second" false, .markdown "**Morning**",
        .markdown "**Afternoon**", .markdown "**Evening**", .markdown "**Food**",
        .markdown "**Transport Notes**", .info (.str ""), .markdown "---",
        .downloadJson [("daily_plan", .list [.dict [("title", .str "First")],
          .dict [("title", .str "Second")]])],
        .downloadMd ("# AI Travel Planner Itinerary\n\n## Daily Plan\n" ++
          "### Day None – First\n\n### Day None – Second\n")] ∧
    expanderFlags
      [Event.success (.str ""), Event.markdown "## 🗓️ Daily Schedule",
        Event.expander "Day ?: First" false, Event.markdown "**Morning**",
        Event.markdown "**Afternoon**", Event.markdown "**Evening**",
        Event.markdown "**Food**", Event.markdown "**Transport Notes**",
        Event.info (.str ""),
        Event.expander "Day ?: Second" false, Event.markdown "**Morning**",
        Event.markdown "**Afternoon**", Event.markdown "**Evening**",
        Event.markdown "**Food**", Event.markdown "**Transport Notes**",
        Event.info (.str ""), Event.markdown "---",
        Event.downloadJson [("daily_plan", .list [.dict [("title", .str "First")],
          .dict [("title", .str "Second")]])],
        Event.downloadMd ("# AI Travel Planner Itinerary\n\n## Daily Plan\n" ++
          "### Day None – First\n\n### Day None – Second\n")] =
      [("Day ?: First", false), ("Day ?: Second", false)] :=
  ⟨rfl, rfl⟩

/-- C9 (amended): a dict day entry's expander is expanded exactly when its
`day` value equals the integer 1 (`day.get('day','?') == 1`), regardless of
position; when the `day` key is absent the default `'?'` never equals 1, so
the entry starts collapsed — including the first one. -/
theorem renderDay_expanded_iff_day_one (d : List (String × Value)) (evs : List Event)
    (h : renderDay (.dict d) = .ok evs) :
    evs.head? = some (Event.expander
      ("Day " ++ pyStr (assocGet d "day" (.str "?")) ++ ": " ++
        pyStr (assocGet d "title" (.str "")))
      (pyEqInt (assocGet d "day" (.str "?")) 1)) ∧
    (hasKey d "day" = false → pyEqInt (assocGet d "day" (.str "?")) 1 = false) := by
  obtain ⟨m, a, e, fd, _, _, _, _, rfl⟩ := renderDay_dict_shape d evs h
  refine ⟨rfl, fun hk => ?_⟩
  rw [assocGet_of_not_hasKey _ _ _ hk]
  rfl

theorem renderDay_expanded_iff_day_one_witness :
    [Event.expander "Day ?: B" false, Event.markdown "**Morning**",
      Event.markdown "**Afternoon**", Event.markdown "**Evening**",
      Event.markdown "**Food**", Event.markdown "**Transport Notes**",
      Event.info (.str "")].head? = some (Event.expander "Day ?: B" false) ∧
    pyEqInt (assocGet [("title", Value.str "B")] "day" (.str "?")) 1 = false :=
  ⟨(renderDay_expanded_iff_day_one [("title", Value.str "B")] _ rfl).1,
   (renderDay_expanded_iff_day_one [("title", Value.str "B")] _ rfl).2 rfl⟩

theorem noSub_append (l1 l2 : List Event) :
    noSubheaderEvents (l1 ++ l2) = (noSubheaderEvents l1 && noSubheaderEvents l2) := by
  simp [noSubheaderEvents, List.all_append]

theorem renderList_noSub (v : Value) : noSubheaderEvents (renderList v) = true := by
  cases v <;> simp only [renderList, noSubheaderEvents]
  case str s => rfl
  case list l =>
    rw [all_map_eq, List.all_eq_true]
    intro x _
    rfl
  all_goals rfl

theorem renderSection_noSub (d : List (String × Value)) (lab key : String)
    (l : List Event) (h : renderSection d lab key = .ok l) :
    noSubheaderEvents l = true := by
  obtain ⟨rest, rfl, hw⟩ := renderSection_ok_shape d lab key l h
  rw [noSubheaderEvents, List.all_cons]
  have hr : rest.all (fun e => !isSubheaderEvent e) = true := by
    rw [List.all_eq_true]
    intro e he
    obtain ⟨s, rfl⟩ := hw e he
    rfl
  rw [hr]
  rfl

theorem renderDay_noSub (day : Value) (evs : List Event)
    (h : renderDay day = .ok evs) : noSubheaderEvents evs = true := by
  cases day
  case dict d =>
    obtain ⟨m, a, e, fd, hm, ha, he, hfd, rfl⟩ := renderDay_dict_shape d evs h
    rw [noSubheaderEvents, List.all_cons]
    have hms := renderSection_noSub _ _ _ _ hm
    have has := renderSection_noSub _ _ _ _ ha
    have hes := renderSection_noSub _ _ _ _ he
    have hfds := renderSection_noSub _ _ _ _ hfd
    rw [noSubheaderEvents] at hms has hes hfds
    simp only [List.all_append, hms, has, hes, hfds]
    cases hasKey d "est_cost_usd" <;> rfl
  all_goals {
    unfold renderDay at h
    simp only [pure, Except.pure, Except.ok.injEq] at h
    subst h
    rfl }

theorem renderDays_noSub (days : List Value) (evs : List Event)
    (h : renderDays days = .ok evs) : noSubheaderEvents evs = true := by
  induction days generalizing evs with
  | nil =>
    unfold renderDays at h
    simp only [Except.ok.injEq] at h
    subst h
    rfl
  | cons d rest ih =>
    unfold renderDays at h
    obtain ⟨evd, hd, h⟩ := except_bind_ok_destruct h
    obtain ⟨evr, hr, h⟩ := except_bind_ok_destruct h
    simp only [pure, Except.pure, Except.ok.injEq] at h
    subst h
    rw [noSub_append, renderDay_noSub d evd hd, ih evr hr]
    rfl

theorem renderDailyBlock_noSub (plan : List (String × Value)) (evs : List Event)
    (h : renderDailyBlock plan = .ok evs) : noSubheaderEvents evs = true := by
  unfold renderDailyBlock at h
  cases hv : assocGet plan "daily_plan" (.list []) <;> rw [hv] at h
  case str s =>
    simp only [pure, Except.pure, Except.ok.injEq] at h
    subst h
    rfl
  all_goals {
    obtain ⟨days, hdays, h⟩ := except_bind_ok_destruct h
    obtain ⟨dayEvs, hde, h⟩ := except_bind_ok_destruct h
    simp only [pure, Except.pure, Except.ok.injEq] at h
    subst h
    rw [noSubheaderEvents, List.all_cons]
    have := renderDays_noSub _ _ hde
    rw [noSubheaderEvents] at this
    rw [this]
    rfl }

theorem renderMapSection_noSub (plan : List (String × Value)) (evs : List Event)
    (h : renderMapSection plan = .ok evs) : noSubheaderEvents evs = true := by
  unfold renderMapSection at h
  split at h
  · obtain ⟨l, _, h⟩ := except_bind_ok_destruct h
    simp only [pure, Except.pure, Except.ok.injEq] at h
    subst h
    rw [noSubheaderEvents, List.all_cons, all_map_eq]
    simp [isSubheaderEvent]
  · simp only [pure, Except.pure, Except.ok.injEq] at h
    subst h
    rfl

theorem renderPackingSection_noSub (plan : List (String × Value)) (evs : List Event)
    (h : renderPackingSection plan = .ok evs) : noSubheaderEvents evs = true := by
  unfold renderPackingSection at h
  split at h
  · obtain ⟨l, _, h⟩ := except_bind_ok_destruct h
    simp only [pure, Except.pure, Except.ok.injEq] at h
    subst h
    rw [noSubheaderEvents, List.all_cons, all_map_eq]
    simp [isSubheaderEvent]
  · simp only [pure, Except.pure, Except.ok.injEq] at h
    subst h
    rfl

theorem renderVisaSection_noSub (plan : List (String × Value)) :
    noSubheaderEvents (renderVisaSection plan) = true := by
  unfold renderVisaSection
  split
  · rw [noSubheaderEvents, List.all_cons]
    have := renderList_noSub (assocGet plan "visa_and_tips" .none)
    rw [noSubheaderEvents] at this
    rw [this]
    rfl
  · rfl

theorem renderTotalSection_eq_nil (plan : List (String × Value))
    (h : hasKey plan "total_estimated_cost_usd" = false) :
    renderTotalSection plan = [] := by
  unfold renderTotalSection
  rw [assocGet_of_not_hasKey _ _ _ h]
  rfl

theorem mdTotalSection_eq_nil (plan : List (String × Value))
    (h : hasKey plan "total_estimated_cost_usd" = false) :
    mdTotalSection plan = [] := by
  unfold mdTotalSection
  rw [assocGet_of_not_hasKey _ _ _ h]
  rfl

theorem renderItineraryView_noSub (plan : List (String × Value)) (evs : List Event)
    (hk : hasKey plan "total_estimated_cost_usd" = false)
    (h : renderItineraryView plan = .ok evs) : noSubheaderEvents evs = true := by
  unfold renderItineraryView at h
  obtain ⟨ev2, h2, h⟩ := except_bind_ok_destruct h
  obtain ⟨ev4, h4, h⟩ := except_bind_ok_destruct h
  obtain ⟨ev5, h5, h⟩ := except_bind_ok_destruct h
  simp only [pure, Except.pure, Except.ok.injEq] at h
  subst h
  rw [renderTotalSection_eq_nil plan hk]
  simp only [noSub_append, renderVisaSection_noSub plan,
    renderDailyBlock_noSub plan ev2 h2, renderMapSection_noSub plan ev4 h4,
    renderPackingSection_noSub plan ev5 h5]
  rfl

/-- C8: when the key `total_estimated_cost_usd` is entirely absent from the
plan, the Markdown export's total-cost section is empty, the rendered view's
total-cost subheader section is empty, and no `st.subheader` call at all
occurs in the render trace — the total is never shown as 0 or null. -/
theorem total_cost_absent_omitted (plan : List (String × Value)) (evs : List Event)
    (hk : hasKey plan "total_estimated_cost_usd" = false)
    (hr : renderItinerary plan = .ok evs) :
    mdTotalSection plan = [] ∧ renderTotalSection plan = [] ∧
    noSubheaderEvents evs = true := by
  refine ⟨mdTotalSection_eq_nil plan hk, renderTotalSection_eq_nil plan hk, ?_⟩
  unfold renderItinerary at hr
  obtain ⟨view, hview, hr⟩ := except_bind_ok_destruct hr
  obtain ⟨md, hmd, hr⟩ := except_bind_ok_destruct hr
  simp only [pure, Except.pure, Except.ok.injEq] at hr
  subst hr
  rw [noSub_append, renderItineraryView_noSub plan view hk hview]
  rfl

theorem total_cost_absent_omitted_witness :
    mdTotalSection [("summary", Value.str "Hi")] = [] ∧
    renderTotalSection [("summary", Value.str "Hi")] = [] ∧
    noSubheaderEvents
      [Event.success (.str "Hi"), Event.markdown "## 🗓️ Daily Schedule",
       Event.markdown "---", Event.downloadJson [("summary", Value.str "Hi")],
       Event.downloadMd "# AI Travel Planner Itinerary\n\n**Summary:** Hi\n"] =
      true :=
  total_cost_absent_omitted [("summary", Value.str "Hi")] _ rfl rfl

theorem asDict_error (v : Value) (h : isDictV v = false) :
    asDict v = .error "AttributeError: object has no attribute get" := by
  cases v <;> first | rfl | simp [isDictV] at h

theorem mdDay_fails (d : Value) (h : isDictV d = false) :
    exceptFails (mdDay d) = true := by
  unfold mdDay
  rw [asDict_error d h, except_error_bind]
  rfl

theorem mdDays_fails (l : List Value) (v : Value) (hv : v ∈ l)
    (h : isDictV v = false) : exceptFails (mdDays l) = true := by
  induction l with
  | nil => exact absurd hv (List.not_mem_nil v)
  | cons d rest ih =>
    rw [List.mem_cons] at hv
    unfold mdDays
    cases hmd : mdDay d with
    | error e => rw [except_error_bind]; rfl
    | ok ls =>
      rw [except_ok_bind]
      rcases hv with rfl | hv
      · have := mdDay_fails v h
        rw [hmd] at this
        exact absurd this (by simp [exceptFails])
      · have := ih hv
        cases hds : mdDays rest with
        | error e => rw [except_error_bind]; rfl
        | ok more => rw [hds] at this; exact absurd this (by simp [exceptFails])

theorem data_ne_nil_of_ne_empty (s : String) (h : s ≠ "") : s.data ≠ [] := by
  intro hd
  apply h
  cases s with
  | mk data => cases hd; rfl

theorem mdDailySection_fails (plan : List (String × Value))
    (h : badDailyPlan (assocGet plan "daily_plan" .none) = true) :
    exceptFails (mdDailySection plan) = true := by
  unfold mdDailySection
  cases hv : assocGet plan "daily_plan" .none <;> rw [hv] at h
  case num n => simp [badDailyPlan] at h
  case none => simp [badDailyPlan] at h
  case dict d0 => simp [badDailyPlan] at h
  case str s =>
    have hs : s ≠ "" := by simpa [badDailyPlan] using h
    have ht : truthy (Value.str s) = true := by simpa [truthy] using hs
    rw [if_pos ht]
    have hiter : pyIter (Value.str s) =
        .ok (s.data.map (fun c => Value.str (String.singleton c))) := rfl
    rw [hiter, except_ok_bind]
    obtain ⟨c, hc⟩ := List.exists_mem_of_ne_nil s.data (data_ne_nil_of_ne_empty s hs)
    have hmem : Value.str (String.singleton c) ∈
        s.data.map (fun c => Value.str (String.singleton c)) :=
      List.mem_map.mpr ⟨c, hc, rfl⟩
    have := mdDays_fails _ _ hmem rfl
    cases hds : mdDays (s.data.map (fun c => Value.str (String.singleton c))) with
    | error e => rw [except_error_bind]; rfl
    | ok more => rw [hds] at this; exact absurd this (by simp [exceptFails])
  case list l =>
    rw [badDailyPlan, List.any_eq_true] at h
    obtain ⟨v, hvl, hnd⟩ := h
    have hndf : isDictV v = false := by simpa using hnd
    have ht : truthy (Value.list l) = true := by
      cases l with
      | nil => exact absurd hvl (List.not_mem_nil v)
      | cons a rest => rfl
    rw [if_pos ht]
    have hiter : pyIter (Value.list l) = .ok l := rfl
    rw [hiter, except_ok_bind]
    have := mdDays_fails l v hvl hndf
    cases hds : mdDays l with
    | error e => rw [except_error_bind]; rfl
    | ok more => rw [hds] at this; exact absurd this (by simp [exceptFails])

/-- C10: counterexample to the claim as stated — a plan whose `daily_plan`
contains a non-dict entry is handled by the view phase of `render_itinerary`
without raising, but `render_itinerary` as a whole raises anyway, because it
invokes `itinerary_to_markdown` for the download button. -/
theorem renderItinerary_non_dict_day :
    renderItineraryView [("daily_plan", .list [.num 5])] =
      .ok [.success (.str ""), .markdown "## 🗓️ Daily Schedule",
        .expander "Day ?: 5" false, .write "5"] ∧
    renderItinerary [("daily_plan", .list [.num 5])] =
      .error "AttributeError: object has no attribute get" :=
  ⟨rfl, rfl⟩

/-- C10 (amended): for every plan whose truthy `daily_plan` is a non-empty
string or a list containing a non-dict entry, `itinerary_to_markdown`
raises (AttributeError on `.get`) instead of producing a document — and
`render_itinerary`, which calls it to build the Markdown download,
propagates the exception. -/
theorem itineraryToMarkdown_bad_daily_plan (plan : List (String × Value))
    (h : badDailyPlan (assocGet plan "daily_plan" .none) = true) :
    exceptFails (itineraryToMarkdown plan) = true ∧
    exceptFails (renderItinerary plan) = true := by
  have hmd : exceptFails (itineraryToMarkdown plan) = true := by
    unfold itineraryToMarkdown
    cases hv : mdVisaSection plan with
    | error e => rw [except_error_bind]; rfl
    | ok visa =>
      rw [except_ok_bind]
      have hds := mdDailySection_fails plan h
      cases hd : mdDailySection plan with
      | error e => rw [except_error_bind]; rfl
      | ok daily => rw [hd] at hds; exact absurd hds (by simp [exceptFails])
  refine ⟨hmd, ?_⟩
  unfold renderItinerary
  cases hv : renderItineraryView plan with
  | error e => rw [except_error_bind]; rfl
  | ok view =>
    rw [except_ok_bind]
    cases hm : itineraryToMarkdown plan with
    | error e => rw [except_error_bind]; rfl
    | ok md => rw [hm] at hmd; exact absurd hmd (by simp [exceptFails])

theorem itineraryToMarkdown_bad_daily_plan_witness :
    exceptFails (itineraryToMarkdown [("daily_plan", .list [.str "x", .num 3])]) = true ∧
    exceptFails (renderItinerary [("daily_plan", .list [.str "x", .num 3])]) = true :=
  itineraryToMarkdown_bad_daily_plan [("daily_plan", .list [.str "x", .num 3])] rfl
